import Mathlib

/-!
Verification of the Dust Container Designer configuration engine
(src/core-app.js): the configuration record, the constraint validator
with its per-check remedies, the commit / fix / ignore / undo / redo
state machine over bounded history stacks, the configuration-interchange
import, and the mass-properties calculator.

Numbers are embedded as exact rationals. The source computes with JS
floating point; all claims here concern exact arithmetic relationships,
which is the standard shallow-embedding convention. Math.PI enters only
the lid hole area; the calculator takes it as an explicit parameter
since every claim proved below is independent of its value.
-/

namespace DustContainer

/-- Configuration record, mirroring the DEFAULTS object of src/core-app.js
field for field (all lengths in millimeters, densities in kg per cubic
meter, fill percentage in percent). -/
structure Config where
  L_rect : ℚ
  x_hopper : ℚ
  H : ℚ
  W : ℚ
  t_wall : ℚ
  include_frame : Bool
  H_frame : ℚ
  W_pocket : ℚ
  H_pocket : ℚ
  S_pocket : ℚ
  unlock_pockets : Bool
  include_lid : Bool
  t_lid : ℚ
  r_hole : ℚ
  lid_edge_length : ℚ
  lid_offset_from_hopper_edge : ℚ
  advanced_lid_material : Bool
  rho_lid : ℚ
  shell_material : String
  rho_shell : ℚ
  rho_dust : ℚ
  humidity : ℚ
  fill_percentage : ℚ
  snap_to_grid : Bool
  move_step_mm : ℚ
  show_reference_cube : Bool
  show_cog_empty : Bool
  show_cog_filled : Bool
  export_lid_with_container : Bool
deriving DecidableEq

/-- Default configuration (the DEFAULTS constant of src/core-app.js). -/
def DEFAULTS : Config where
  L_rect := 1400
  x_hopper := 700
  H := 900
  W := 1300
  t_wall := 5
  include_frame := true
  H_frame := 100
  W_pocket := 230
  H_pocket := 91
  S_pocket := 142
  unlock_pockets := false
  include_lid := false
  t_lid := 3
  r_hole := 200
  lid_edge_length := 100
  lid_offset_from_hopper_edge := 500
  advanced_lid_material := false
  rho_lid := 7850
  shell_material := "steel"
  rho_shell := 7850
  rho_dust := 1850
  humidity := 0
  fill_percentage := 80
  snap_to_grid := true
  move_step_mm := 50
  show_reference_cube := false
  show_cog_empty := true
  show_cog_filled := true
  export_lid_with_container := false

/-! ## Constraint validator (validateCandidate in src/core-app.js) -/

/-- Validation failure payload: human-readable message, the candidate
after the fix closure has been applied to it (the source mutates the
candidate in place; we record the resulting configuration), and the
offending input-field identifiers. -/
structure Failure where
  message : String
  fixed : Config
  fields : List String
deriving DecidableEq

/-- Result of validateCandidate: ok true, or ok false with failure data. -/
inductive ValidationResult
  | valid
  | invalid (f : Failure)
deriving DecidableEq

/-- Check 1 violated: a core dimension is not positive
(c.L_rect <= 0 || c.H <= 0 || c.W <= 0 || c.t_wall <= 0). -/
abbrev positivityFails (c : Config) : Prop :=
  c.L_rect ≤ 0 ∨ c.H ≤ 0 ∨ c.W ≤ 0 ∨ c.t_wall ≤ 0

/-- Remedy for check 1: clamp dimensions up to minimal values. -/
def fixPositivity (c : Config) : Config :=
  { c with L_rect := max c.L_rect 100, H := max c.H 100,
           W := max c.W 100, t_wall := max c.t_wall 2 }

/-- Upper bound used by the wall-thickness remedy:
Math.min(c.W, c.L_rect) / 4. -/
def maxWall (c : Config) : ℚ := min c.W c.L_rect / 4

/-- Check 2 violated: wall thickness collapses the cavity
(2 * c.t_wall >= c.W || 2 * c.t_wall >= c.L_rect). -/
abbrev wallFails (c : Config) : Prop :=
  2 * c.t_wall ≥ c.W ∨ 2 * c.t_wall ≥ c.L_rect

/-- Remedy for check 2: t_wall := Math.max(2, Math.floor(maxWall)). -/
def fixWall (c : Config) : Config :=
  { c with t_wall := max 2 ((⌊maxWall c⌋ : ℤ) : ℚ) }

/-- Check 3 violated: hopper extension out of range
(c.x_hopper < 0 || c.x_hopper > c.L_rect). -/
abbrev hopperFails (c : Config) : Prop :=
  c.x_hopper < 0 ∨ c.x_hopper > c.L_rect

/-- Remedy for check 3: clamp x_hopper into the interval from 0 to L_rect. -/
def fixHopper (c : Config) : Config :=
  { c with x_hopper := max 0 (min c.x_hopper c.L_rect) }

/-- Check 4 violated: frame included and frame height not below container
height (c.include_frame && c.H_frame >= c.H). -/
abbrev frameFails (c : Config) : Prop :=
  c.include_frame ∧ c.H_frame ≥ c.H

/-- Remedy for check 4: H_frame := Math.max(30, Math.floor(c.H / 3)). -/
def fixFrame (c : Config) : Config :=
  { c with H_frame := max 30 ((⌊c.H / 3⌋ : ℤ) : ℚ) }

/-- Check 5 violated: frame included and two pockets plus spacing plus
two 20 mm margins need more width than available. -/
abbrev pocketFails (c : Config) : Prop :=
  c.include_frame ∧ 2 * c.W_pocket + c.S_pocket + 2 * 20 > c.W

/-- Remedy for check 5: shrink pockets, floored at 50 mm:
W_pocket := Math.max(50, Math.floor((c.W - 2*20 - c.S_pocket) / 2)). -/
def fixPocket (c : Config) : Config :=
  { c with W_pocket := max 50 ((⌊(c.W - 2 * 20 - c.S_pocket) / 2⌋ : ℤ) : ℚ) }

/-- Largest allowed lid hole radius:
Math.max(20, Math.min(c.W / 2 - c.lid_edge_length, c.L_rect / 2 - c.lid_edge_length)). -/
def maxLidRadius (c : Config) : ℚ :=
  max 20 (min (c.W / 2 - c.lid_edge_length) (c.L_rect / 2 - c.lid_edge_length))

/-- Check 6 violated: lid included and hole radius above the allowed
maximum (c.include_lid && c.r_hole > maxR). -/
abbrev lidFails (c : Config) : Prop :=
  c.include_lid ∧ c.r_hole > maxLidRadius c

/-- Remedy for check 6: r_hole := maxR. -/
def fixLid (c : Config) : Config :=
  { c with r_hole := maxLidRadius c }

/-- The six checks, in the order the validator runs them. -/
inductive Check
  | positivity
  | wall
  | hopper
  | frameHeight
  | pocketWidth
  | lidHole
deriving DecidableEq

/-- Position of a check in the validator's fixed priority order. -/
def checkIdx : Check → Nat
  | .positivity => 0
  | .wall => 1
  | .hopper => 2
  | .frameHeight => 3
  | .pocketWidth => 4
  | .lidHole => 5

/-- Violation condition of each check, as tested by validateCandidate. -/
def checkFails (k : Check) (c : Config) : Prop :=
  match k with
  | .positivity => positivityFails c
  | .wall => wallFails c
  | .hopper => hopperFails c
  | .frameHeight => frameFails c
  | .pocketWidth => pocketFails c
  | .lidHole => lidFails c

instance (k : Check) (c : Config) : Decidable (checkFails k c) := by
  cases k <;> simp only [checkFails] <;> infer_instance

/-- Failure payload produced when a given check fires on a candidate:
the exact message string, the candidate with that check's fix applied,
and the offending field identifiers from src/core-app.js. -/
def failureFor (k : Check) (c : Config) : Failure :=
  match k with
  | .positivity =>
    ⟨"All main dimensions (L_rect, H, W, t_wall) must be > 0.",
     fixPositivity c,
     ["input-l-rect", "input-h", "input-w", "input-t-wall"]⟩
  | .wall =>
    ⟨"Wall thickness too large relative to width/length – inner cavity would collapse.",
     fixWall c,
     ["input-t-wall"]⟩
  | .hopper =>
    ⟨"x_hopper must be between 0 and L_rect (wedge cannot be longer than the rectangular part).",
     fixHopper c,
     ["input-x-hopper", "input-l-rect"]⟩
  | .frameHeight =>
    ⟨"Frame height H_frame should be smaller than container height H.",
     fixFrame c,
     ["input-h-frame", "input-h"]⟩
  | .pocketWidth =>
    ⟨"Forklift pockets + spacing need more width than available. Reduce pocket width/spacing or increase container width.",
     fixPocket c,
     ["input-w-pocket", "input-s-pocket", "input-w"]⟩
  | .lidHole =>
    ⟨"Lid hole radius too large; ring edge would become negative.",
     fixLid c,
     ["input-r-hole", "input-lid-edge"]⟩

/-- The constraint validator, a direct transcription of validateCandidate
from src/core-app.js: six checks in fixed order, short-circuiting on the
first violation. -/
def validateCandidate (c : Config) : ValidationResult :=
  if positivityFails c then .invalid (failureFor .positivity c)
  else if wallFails c then .invalid (failureFor .wall c)
  else if hopperFails c then .invalid (failureFor .hopper c)
  else if frameFails c then .invalid (failureFor .frameHeight c)
  else if pocketFails c then .invalid (failureFor .pocketWidth c)
  else if lidFails c then .invalid (failureFor .lidHole c)
  else .valid

/-- Candidate after the remedy of the check that rejected it (identity
when the validator accepts). -/
def remediedOf (c : Config) : Config :=
  match validateCandidate c with
  | .valid => c
  | .invalid f => f.fixed

/-- Failure payload of a rejected candidate (dummy payload when the
validator accepts; only used at rejected candidates). -/
def failureOf (c : Config) : Failure :=
  match validateCandidate c with
  | .valid => ⟨"", c, []⟩
  | .invalid f => f

/-! ## Engine state: current and last-valid configuration, history stacks

The engine state gathers the module-level mutable variables of
src/core-app.js: state, lastValidState, undoStack, redoStack. Stacks are
lists with the newest snapshot at the head (JS push/pop act on the array
end, JS shift evicts the oldest, which is dropLast here). The counters
saves and recomputes record how often saveState and updateOutputs have
been called, so that claims about persisting and recomputing are
statable on the pure model. -/

structure Engine where
  state : Config
  lastValidState : Config
  undoStack : List Config
  redoStack : List Config
  saves : Nat
  recomputes : Nat
deriving DecidableEq

/-- pushUndo from src/core-app.js: push a snapshot of the current state,
evict the oldest entry if the stack exceeds 50, clear the redo stack. -/
def pushUndo (e : Engine) : Engine :=
  let u := e.state :: e.undoStack
  { e with undoStack := if u.length > 50 then u.dropLast else u,
           redoStack := [] }

/-- Valid-commit path of commitState: push undo history, replace current
and last-valid state with the candidate, recompute outputs, persist. -/
def commitValid (e : Engine) (cand : Config) : Engine :=
  let e1 := pushUndo e
  { e1 with state := cand, lastValidState := cand,
            recomputes := e1.recomputes + 1, saves := e1.saves + 1 }

/-- commitState from src/core-app.js: validate the cloned candidate; on
success commit it, on failure leave the engine untouched and hand the
failure back as a pending Fix/Ignore decision (the modal). -/
def commitState (e : Engine) (newState : Config) : Engine × Option Failure :=
  match validateCandidate newState with
  | .valid => (commitValid e newState, none)
  | .invalid f => (e, some f)

/-- Fix resolution (the onFix closure in commitState): apply the remedy,
replace current and last-valid state with the remedied candidate, THEN
push undo history (so the snapshot pushed is the remedied candidate,
taken after the replacement), recompute, persist. -/
def resolveFix (e : Engine) (f : Failure) : Engine :=
  let e1 := { e with state := f.fixed, lastValidState := f.fixed }
  let e2 := pushUndo e1
  { e2 with recomputes := e2.recomputes + 1, saves := e2.saves + 1 }

/-- Ignore resolution (the onIgnore closure in commitState): restore the
last known valid snapshot; no history push, no recompute, no persist. -/
def resolveIgnore (e : Engine) : Engine :=
  { e with state := e.lastValidState }

/-- undo from src/core-app.js: no-op on an empty stack, else pop the
newest undo snapshot, push the current state onto redo, restore the
popped snapshot as current AND as last-valid, recompute, persist. -/
def undoOp (e : Engine) : Engine :=
  match e.undoStack with
  | [] => e
  | prev :: rest =>
    { state := prev, lastValidState := prev,
      undoStack := rest, redoStack := e.state :: e.redoStack,
      saves := e.saves + 1, recomputes := e.recomputes + 1 }

/-- redo from src/core-app.js: mirror of undo. -/
def redoOp (e : Engine) : Engine :=
  match e.redoStack with
  | [] => e
  | next :: rest =>
    { state := next, lastValidState := next,
      redoStack := rest, undoStack := e.state :: e.undoStack,
      saves := e.saves + 1, recomputes := e.recomputes + 1 }

/-- Reset-to-defaults button handler: defaults everywhere, stacks
cleared, recompute and persist. -/
def resetOp (e : Engine) : Engine :=
  { state := DEFAULTS, lastValidState := DEFAULTS,
    undoStack := [], redoStack := [],
    saves := e.saves + 1, recomputes := e.recomputes + 1 }

/-- Engine right after loadState: both branches of loadState set state
and lastValidState to the same configuration (the merged persisted
snapshot, or the defaults) with empty stacks. -/
def initEngine (loaded : Config) : Engine :=
  { state := loaded, lastValidState := loaded,
    undoStack := [], redoStack := [],
    saves := 0, recomputes := 0 }

/-- Outcome handed back by the configuration import. -/
inductive ImportOutcome
  | committed
  | pendingFailure (f : Failure)
  | failureReported
  | cancelled
deriving DecidableEq

/-- importConfig from src/core-app.js. The text is none when the prompt
was cancelled; JS treats the empty string the same way (if (!text)
return). The parameter parse abstracts JSON.parse followed by merging
the parsed fields over DEFAULTS (Object.assign); none models a thrown
parse error, in which case only an alert is shown (failureReported) and
nothing is touched. On success the merged configuration goes through
commitState. -/
def importConfig (e : Engine) (text : Option String)
    (parse : String → Option Config) : Engine × ImportOutcome :=
  match text with
  | none => (e, .cancelled)
  | some t =>
    if t = "" then (e, .cancelled)
    else
      match parse t with
      | none => (e, .failureReported)
      | some merged =>
        match commitState e merged with
        | (e1, none) => (e1, .committed)
        | (e1, some f) => (e1, .pendingFailure f)

/-- Top-level operations that mutate the engine state. Fix and Ignore
resolutions are taken with an arbitrary pending failure, which covers
every failure the validator can actually produce. -/
inductive Op
  | commit (c : Config)
  | fixResolution (f : Failure)
  | ignoreResolution
  | undoBtn
  | redoBtn
  | resetBtn

/-- Effect of one operation on the engine. -/
def Op.apply (op : Op) (e : Engine) : Engine :=
  match op with
  | .commit c => (commitState e c).1
  | .fixResolution f => resolveFix e f
  | .ignoreResolution => resolveIgnore e
  | .undoBtn => undoOp e
  | .redoBtn => redoOp e
  | .resetBtn => resetOp e

/-- Engine after a sequence of operations. -/
def applyOps (e : Engine) (ops : List Op) : Engine :=
  ops.foldl (fun e1 op => op.apply e1) e

/-! ## Mass-properties calculator (computeVolumesAndMasses)

Each local variable of computeVolumesAndMasses in src/core-app.js is
transcribed as a definition of the same name, then assembled into the
returned record. The source writes the literals 0.001, 0.5 and 1e-6;
they appear here as the exact rationals 1/1000, 1/2 and 1/1000000. The
hole area uses Math.PI; it is passed as the parameter pi. -/

/-- Millimeters to meters, mmToM in src/core-app.js. -/
def mmToM (mm : ℚ) : ℚ := mm / 1000

/-- Cartesian point, for the centers of gravity. -/
structure Vec3 where
  x : ℚ
  y : ℚ
  z : ℚ
deriving DecidableEq

/-- Inner cavity length: Math.max(0.001, L - 2 * t) in meters. -/
def L_in (c : Config) : ℚ :=
  max (1 / 1000) (mmToM c.L_rect - 2 * mmToM c.t_wall)

/-- Inner cavity width: Math.max(0.001, W - 2 * t). -/
def W_in (c : Config) : ℚ :=
  max (1 / 1000) (mmToM c.W - 2 * mmToM c.t_wall)

/-- Inner cavity height (open top): Math.max(0.001, H - t). -/
def H_in (c : Config) : ℚ :=
  max (1 / 1000) (mmToM c.H - mmToM c.t_wall)

/-- Inner hopper extent: Math.max(0, x - t). -/
def x_in (c : Config) : ℚ :=
  max 0 (mmToM c.x_hopper - mmToM c.t_wall)

/-- Inner rectangular box volume. -/
def V_rect_in (c : Config) : ℚ := L_in c * W_in c * H_in c

/-- Inner hopper wedge volume: 0.5 * x_in * H_tri_in * W_in with
H_tri_in = H_in. -/
def V_hopper_in (c : Config) : ℚ := 1 / 2 * x_in c * H_in c * W_in c

/-- Internal cavity volume. -/
def V_internal (c : Config) : ℚ := V_rect_in c + V_hopper_in c

/-- Fill fraction: Math.min(1, Math.max(0, fill_percentage / 100)). -/
def fillFrac (c : Config) : ℚ :=
  min 1 (max 0 (c.fill_percentage / 100))

/-- Fill volume. -/
def V_fill (c : Config) : ℚ := V_internal c * fillFrac c

/-- Outer rectangular box volume. -/
def V_rect_out (c : Config) : ℚ := mmToM c.L_rect * mmToM c.W * mmToM c.H

/-- Outer hopper wedge volume: x > 0 ? 0.5 * x * H * W : 0. -/
def V_hopper_out (c : Config) : ℚ :=
  if 0 < mmToM c.x_hopper then
    1 / 2 * mmToM c.x_hopper * mmToM c.H * mmToM c.W
  else 0

/-- Frame slab volume: include_frame ? L * W * Hf : 0. -/
def V_frame_out (c : Config) : ℚ :=
  if c.include_frame then mmToM c.L_rect * mmToM c.W * mmToM c.H_frame
  else 0

/-- Pocket volume deduction: only when the frame is included and two
pockets plus spacing fit into the available width (with the source's
1e-6 slack); 2 * L * W_pocket * H_pocket. -/
def V_pockets (c : Config) : ℚ :=
  if c.include_frame ∧
      2 * mmToM c.W_pocket + mmToM c.S_pocket ≤
        (mmToM c.W - 2 * mmToM 20) + 1 / 1000000 then
    2 * (mmToM c.L_rect * mmToM c.W_pocket * mmToM c.H_pocket)
  else 0

/-- Outer (solid) volume. -/
def V_outer (c : Config) : ℚ := V_rect_out c + V_hopper_out c + V_frame_out c

/-- Shell volume: Math.max(0, V_outer - V_internal - V_pockets). -/
def V_shell (c : Config) : ℚ := max 0 (V_outer c - V_internal c - V_pockets c)

/-- Lid density: advanced_lid_material ? rho_lid : rho_shell. -/
def rhoLid (c : Config) : ℚ :=
  if c.advanced_lid_material then c.rho_lid else c.rho_shell

/-- Lid volume: include_lid ? Math.max(0, (L*W - pi*r*r) * tLid) : 0. -/
def V_lid (c : Config) (pi : ℚ) : ℚ :=
  if c.include_lid then
    max 0 ((mmToM c.L_rect * mmToM c.W - pi * mmToM c.r_hole * mmToM c.r_hole)
      * mmToM c.t_lid)
  else 0

/-- Shell mass. -/
def m_shell (c : Config) : ℚ := V_shell c * c.rho_shell

/-- Lid mass: V_lid * (include_lid ? rhoLid : 0). -/
def m_lid (c : Config) (pi : ℚ) : ℚ :=
  V_lid c pi * (if c.include_lid then rhoLid c else 0)

/-- Dust mass. -/
def m_dust (c : Config) : ℚ := V_fill c * c.rho_dust

/-- Empty mass. -/
def m_empty (c : Config) (pi : ℚ) : ℚ := m_shell c + m_lid c pi

/-- Total mass. -/
def m_total (c : Config) (pi : ℚ) : ℚ := m_empty c pi + m_dust c

/-- Centroid of the rectangular body. -/
def c_rect (c : Config) : Vec3 :=
  ⟨mmToM c.L_rect / 2, 0, mmToM c.H / 2⟩

/-- Centroid of the hopper wedge (null when x is 0): x > 0 ?
(-x/3, 0, H/3) : null. -/
def c_hopper (c : Config) : Option Vec3 :=
  if 0 < mmToM c.x_hopper then
    some ⟨-(mmToM c.x_hopper) / 3, 0, mmToM c.H / 3⟩
  else none

/-- Centroid of the frame slab. -/
def c_frame (c : Config) : Option Vec3 :=
  if c.include_frame then some ⟨mmToM c.L_rect / 2, 0, mmToM c.H_frame / 2⟩
  else none

/-- Centroid of the lid. -/
def c_lid (c : Config) (pi : ℚ) : Option Vec3 :=
  if c.include_lid ∧ 0 < V_lid c pi then
    some ⟨mmToM c.L_rect / 2, 0, mmToM c.H + mmToM c.t_lid / 2⟩
  else none

/-- One weighted component of the empty centroid: a volume and an
optional local centroid; components without a centroid are skipped. -/
structure Comp where
  v : ℚ
  c : Option Vec3

/-- Accumulator step of weightedCentroid: running sums of v*x, v*y, v*z
and of v, skipping components with no centroid. -/
def centroidStep (a : ℚ × ℚ × ℚ × ℚ) (comp : Comp) : ℚ × ℚ × ℚ × ℚ :=
  match comp.c with
  | none => a
  | some p => (a.1 + comp.v * p.x, a.2.1 + comp.v * p.y,
               a.2.2.1 + comp.v * p.z, a.2.2.2 + comp.v)

/-- weightedCentroid from src/core-app.js: null when the total weight is
not positive. -/
def weightedCentroid (comps : List Comp) : Option Vec3 :=
  let a := comps.foldl centroidStep (0, 0, 0, 0)
  if a.2.2.2 ≤ 0 then none
  else some ⟨a.1 / a.2.2.2, a.2.1 / a.2.2.2, a.2.2.1 / a.2.2.2⟩

/-- Components entering the empty center of gravity, pushed in source
order and only when the corresponding volume is positive. -/
def compsEmpty (c : Config) (pi : ℚ) : List Comp :=
  (if 0 < V_rect_out c then [⟨V_rect_out c, some (c_rect c)⟩] else []) ++
  (if 0 < V_hopper_out c then [⟨V_hopper_out c, c_hopper c⟩] else []) ++
  (if 0 < V_frame_out c then [⟨V_frame_out c, c_frame c⟩] else []) ++
  (if c.include_lid ∧ 0 < V_lid c pi then [⟨V_lid c pi, c_lid c pi⟩] else [])

/-- Center of gravity of the empty container. -/
def cog_empty (c : Config) (pi : ℚ) : Option Vec3 :=
  weightedCentroid (compsEmpty c pi)

/-- Dust centroid: defined when fill and cavity volume are positive, at
(L/2, 0, (H_in/2) * fillFrac). -/
def cog_dust (c : Config) : Option Vec3 :=
  if 0 < V_fill c ∧ 0 < V_internal c then
    some ⟨mmToM c.L_rect / 2, 0, H_in c / 2 * fillFrac c⟩
  else none

/-- Center of gravity of the filled container: mass-weighted mix of the
empty centroid and the dust centroid when both exist with positive
masses, else the empty centroid, else null. -/
def cog_filled (c : Config) (pi : ℚ) : Option Vec3 :=
  match cog_empty c pi, cog_dust c with
  | some ce, some cd =>
    if 0 < m_dust c ∧ 0 < m_empty c pi then
      let M1 := m_empty c pi
      let M2 := m_dust c
      some ⟨(M1 * ce.x + M2 * cd.x) / (M1 + M2),
            (M1 * ce.y + M2 * cd.y) / (M1 + M2),
            (M1 * ce.z + M2 * cd.z) / (M1 + M2)⟩
    else some ce
  | some ce, none => some ce
  | none, _ => none

/-- Record returned by computeVolumesAndMasses. -/
structure MassProps where
  V_internal : ℚ
  V_fill : ℚ
  m_shell : ℚ
  m_lid : ℚ
  m_dust : ℚ
  m_total : ℚ
  cog_empty : Option Vec3
  cog_filled : Option Vec3

/-- computeVolumesAndMasses from src/core-app.js, assembled from the
definitions above. -/
def computeVolumesAndMasses (c : Config) (pi : ℚ) : MassProps :=
  ⟨V_internal c, V_fill c, m_shell c, m_lid c pi, m_dust c, m_total c pi,
   cog_empty c pi, cog_filled c pi⟩

/-! ## Definitions taken from the spec's words (for refinement claims) -/

/-- Modelled from the spec (section 4.5 step 2): internal cavity volume
as the inner box volume (L-2t)*(W-2t)*(H-t) plus the hopper wedge
volume 0.5*(x_hopper-t)*(H-t)*(W-2t), BOTH VOLUMES clamped to be
nonnegative, after converting millimeters to meters. -/
def specCavityVolume (c : Config) : ℚ :=
  max 0 ((mmToM c.L_rect - 2 * mmToM c.t_wall) *
         (mmToM c.W - 2 * mmToM c.t_wall) *
         (mmToM c.H - mmToM c.t_wall)) +
  max 0 (1 / 2 * (mmToM c.x_hopper - mmToM c.t_wall) *
         (mmToM c.H - mmToM c.t_wall) *
         (mmToM c.W - 2 * mmToM c.t_wall))

/-- Modelled from the spec (section 4.5 step 3): fill volume as the
cavity volume times clamp(fill_percentage/100, 0, 1). -/
def specFillVolume (c : Config) : ℚ :=
  specCavityVolume c * min 1 (max 0 (c.fill_percentage / 100))

/-! ## Concrete configurations and engines used in the theorems below -/

/-- Candidate rejected by the positivity check whose remedied version is
still rejected: after the positivity fix (L_rect becomes 100, t_wall
stays 150) the wall-thickness check fires (300 is at least 200). -/
def badPositivity : Config :=
  { DEFAULTS with
    L_rect := 0
    W := 200
    H := 100
    t_wall := 150 }

/-- Candidate rejected by the wall-thickness check (1400 is at least
1300); its remedy caps t_wall at 325. -/
def badWall : Config :=
  { DEFAULTS with t_wall := 700 }

/-- Candidate rejected only by the lid-hole-radius check: the first five
checks pass and r_hole 900 exceeds the allowed maximum 20. -/
def badLidOnly : Config :=
  { DEFAULTS with
    include_lid := true
    r_hole := 900
    lid_edge_length := 700 }

/-- Candidate violating both the wall-thickness check and the lid-hole
check at once. -/
def badWallAndLid : Config :=
  { DEFAULTS with
    t_wall := 700
    include_lid := true
    r_hole := 900
    lid_edge_length := 700 }

/-- Valid candidate differing from the defaults in L_rect. -/
def longerValid : Config :=
  { DEFAULTS with L_rect := 1500 }

/-- Configuration whose floor thickness exceeds its height (H - t_wall
is negative), where the source clamps the inner height to 0.001 m while
the spec formula clamps the box volume to 0. -/
def thinFloor : Config :=
  { DEFAULTS with
    H := 50
    t_wall := 100
    include_frame := false }

/-- Configuration the validator accepts whose shell density is negative,
giving a negative shell mass. -/
def negDensity : Config :=
  { DEFAULTS with
    L_rect := 1000
    W := 1000
    H := 1000
    t_wall := 100
    x_hopper := 0
    include_frame := false
    include_lid := false
    fill_percentage := 0
    rho_shell := -1 }

/-- Valid boundary configuration: no hopper, no frame, no lid, zero
fill. -/
def boundaryValid : Config :=
  { DEFAULTS with
    x_hopper := 0
    include_frame := false
    include_lid := false
    fill_percentage := 0 }

/-- Engine whose undo stack already holds 50 snapshots. -/
def fullEngine : Engine :=
  { initEngine DEFAULTS with undoStack := List.replicate 50 DEFAULTS }

/-- Engine with one snapshot on each history stack. -/
def oneEachEngine : Engine :=
  { initEngine DEFAULTS with
    undoStack := [longerValid]
    redoStack := [longerValid] }

/-- Parse function that rejects every interchange text. -/
def parseNone : String → Option Config := fun _ => none

/-! ## General lemmas about the history stacks -/

/-- Pushing an undo snapshot always leaves the freshly pushed state at
the head of the stack: eviction removes the oldest entry, never the
newest. -/
lemma pushUndo_undoStack_head (e : Engine) :
    ∃ rest, (pushUndo e).undoStack = e.state :: rest := by
  unfold pushUndo
  dsimp only
  split
  · rename_i h
    cases hl : e.undoStack with
    | nil => rw [hl] at h; simp at h
    | cons b t => exact ⟨(b :: t).dropLast, by simp⟩
  · exact ⟨e.undoStack, rfl⟩

/-- Unfolding of undo on a nonempty undo stack. -/
lemma undoOp_cons (e : Engine) (p : Config) (rest : List Config)
    (h : e.undoStack = p :: rest) :
    undoOp e = { state := p, lastValidState := p, undoStack := rest,
                 redoStack := e.state :: e.redoStack,
                 saves := e.saves + 1, recomputes := e.recomputes + 1 } := by
  simp only [undoOp, h]

/-- Unfolding of redo on a nonempty redo stack. -/
lemma redoOp_cons (e : Engine) (n : Config) (rest : List Config)
    (h : e.redoStack = n :: rest) :
    redoOp e = { state := n, lastValidState := n, redoStack := rest,
                 undoStack := e.state :: e.undoStack,
                 saves := e.saves + 1, recomputes := e.recomputes + 1 } := by
  simp only [redoOp, h]

/-- Pushing onto a stack of at most 50 entries keeps the summed stack
sizes at most 50 (the redo stack is cleared). -/
lemma pushUndo_bound (e : Engine) (h : e.undoStack.length ≤ 50) :
    (pushUndo e).undoStack.length + (pushUndo e).redoStack.length ≤ 50 := by
  unfold pushUndo
  dsimp only
  split
  · rename_i hlen
    simp at hlen ⊢
    omega
  · rename_i hlen
    simp at hlen ⊢
    omega

/-- Every operation preserves the bound on the summed stack sizes. -/
lemma stacks_bound_step (op : Op) (e : Engine)
    (h : e.undoStack.length + e.redoStack.length ≤ 50) :
    (op.apply e).undoStack.length + (op.apply e).redoStack.length ≤ 50 := by
  cases op with
  | commit c =>
    cases hv : validateCandidate c with
    | valid =>
      have := pushUndo_bound e (by omega)
      simpa [Op.apply, commitState, hv, commitValid] using this
    | invalid f => simpa [Op.apply, commitState, hv] using h
  | fixResolution f =>
    have := pushUndo_bound { e with state := f.fixed, lastValidState := f.fixed }
      (by simpa using by omega)
    simpa [Op.apply, resolveFix] using this
  | ignoreResolution => simpa [Op.apply, resolveIgnore] using h
  | undoBtn =>
    cases hl : e.undoStack with
    | nil => simpa [Op.apply, undoOp, hl] using h
    | cons p rest =>
      rw [hl] at h
      simp [Op.apply, undoOp_cons e p rest hl]
      simp at h
      omega
  | redoBtn =>
    cases hl : e.redoStack with
    | nil => simpa [Op.apply, redoOp, hl] using h
    | cons n rest =>
      rw [hl] at h
      simp [Op.apply, redoOp_cons e n rest hl]
      simp at h
      omega
  | resetBtn => simp [Op.apply, resetOp]

/-- The bound on the summed stack sizes is preserved by any operation
sequence. -/
lemma stacks_bound_fold (ops : List Op) (e : Engine)
    (h : e.undoStack.length + e.redoStack.length ≤ 50) :
    (applyOps e ops).undoStack.length + (applyOps e ops).redoStack.length ≤ 50 := by
  induction ops generalizing e with
  | nil => simpa [applyOps] using h
  | cons op rest ih => exact ih _ (stacks_bound_step op e h)

/-- Every operation re-establishes agreement between the live state and
the last-valid snapshot. -/
lemma state_eq_lastValid_step (op : Op) (e : Engine)
    (h : e.state = e.lastValidState) :
    (op.apply e).state = (op.apply e).lastValidState := by
  cases op with
  | commit c =>
    cases hv : validateCandidate c with
    | valid => simp [Op.apply, commitState, hv, commitValid, pushUndo]
    | invalid f => simpa [Op.apply, commitState, hv] using h
  | fixResolution f => simp [Op.apply, resolveFix, pushUndo]
  | ignoreResolution => simp [Op.apply, resolveIgnore]
  | undoBtn =>
    cases hl : e.undoStack with
    | nil => simpa [Op.apply, undoOp, hl] using h
    | cons p rest => simp [Op.apply, undoOp_cons e p rest hl]
  | redoBtn =>
    cases hl : e.redoStack with
    | nil => simpa [Op.apply, redoOp, hl] using h
    | cons n rest => simp [Op.apply, redoOp_cons e n rest hl]
  | resetBtn => simp [Op.apply, resetOp]

/-- Agreement of state and last-valid snapshot along any operation
sequence. -/
lemma state_eq_lastValid_fold (ops : List Op) (e : Engine)
    (h : e.state = e.lastValidState) :
    (applyOps e ops).state = (applyOps e ops).lastValidState := by
  induction ops generalizing e with
  | nil => simpa [applyOps] using h
  | cons op rest ih => exact ih _ (state_eq_lastValid_step op e h)

/-! ## Nonnegativity lemmas for the calculator -/

lemma L_in_nonneg (c : Config) : 0 ≤ L_in c :=
  le_trans (by norm_num) (le_max_left _ _)

lemma W_in_nonneg (c : Config) : 0 ≤ W_in c :=
  le_trans (by norm_num) (le_max_left _ _)

lemma H_in_nonneg (c : Config) : 0 ≤ H_in c :=
  le_trans (by norm_num) (le_max_left _ _)

lemma x_in_nonneg (c : Config) : 0 ≤ x_in c := le_max_left _ _

lemma V_internal_nonneg (c : Config) : 0 ≤ V_internal c := by
  unfold V_internal V_rect_in V_hopper_in
  have h1 := L_in_nonneg c
  have h2 := W_in_nonneg c
  have h3 := H_in_nonneg c
  have h4 := x_in_nonneg c
  positivity

lemma fillFrac_nonneg (c : Config) : 0 ≤ fillFrac c :=
  le_min (by norm_num) (le_max_left _ _)

lemma V_fill_nonneg (c : Config) : 0 ≤ V_fill c :=
  mul_nonneg (V_internal_nonneg c) (fillFrac_nonneg c)

lemma V_shell_nonneg (c : Config) : 0 ≤ V_shell c := le_max_left _ _

lemma V_lid_nonneg (c : Config) (pi : ℚ) : 0 ≤ V_lid c pi := by
  unfold V_lid
  split
  · exact le_max_left _ _
  · exact le_refl 0

/-! ## Evaluation lemmas for the concrete inputs -/

/-- badWall is rejected by the wall-thickness check. -/
lemma badWall_invalid :
    validateCandidate badWall = .invalid (failureFor .wall badWall) := by
  norm_num [validateCandidate, positivityFails, wallFails, badWall, DEFAULTS]

/-- badLidOnly passes the first five checks and fails the lid check. -/
lemma badLidOnly_checks :
    ¬ positivityFails badLidOnly ∧ ¬ wallFails badLidOnly ∧
    ¬ hopperFails badLidOnly ∧ ¬ frameFails badLidOnly ∧
    ¬ pocketFails badLidOnly ∧ lidFails badLidOnly := by
  norm_num [positivityFails, wallFails, hopperFails, frameFails, pocketFails,
    lidFails, maxLidRadius, badLidOnly, DEFAULTS]

/-- longerValid passes validation. -/
lemma longerValid_valid : validateCandidate longerValid = .valid := by
  norm_num [validateCandidate, positivityFails, wallFails, hopperFails,
    frameFails, pocketFails, lidFails, maxLidRadius, longerValid, DEFAULTS]

/-- badWallAndLid violates the wall check. -/
lemma badWallAndLid_wall : checkFails Check.wall badWallAndLid := by
  norm_num [checkFails, wallFails, badWallAndLid, DEFAULTS]

/-- badWallAndLid violates the lid check. -/
lemma badWallAndLid_lid : checkFails Check.lidHole badWallAndLid := by
  norm_num [checkFails, lidFails, maxLidRadius, badWallAndLid, DEFAULTS]

/-- The wall check is the earliest check badWallAndLid violates. -/
lemma badWallAndLid_min :
    ∀ j, checkFails j badWallAndLid → checkIdx Check.wall ≤ checkIdx j := by
  intro j hj
  cases j with
  | positivity =>
    exact absurd hj (by norm_num [checkFails, positivityFails, badWallAndLid, DEFAULTS])
  | wall => exact le_refl _
  | hopper => norm_num [checkIdx]
  | frameHeight => norm_num [checkIdx]
  | pocketWidth => norm_num [checkIdx]
  | lidHole => norm_num [checkIdx]

/-- The full engine indeed holds 50 undo snapshots. -/
lemma fullEngine_len : fullEngine.undoStack.length = 50 := by
  simp [fullEngine]

/-- The defaults leave more than a millimeter of cavity in every
direction. -/
lemma defaults_innerDims :
    1 / 1000 ≤ mmToM DEFAULTS.L_rect - 2 * mmToM DEFAULTS.t_wall ∧
    1 / 1000 ≤ mmToM DEFAULTS.W - 2 * mmToM DEFAULTS.t_wall ∧
    1 / 1000 ≤ mmToM DEFAULTS.H - mmToM DEFAULTS.t_wall := by
  norm_num [mmToM, DEFAULTS]

/-- boundaryValid passes validation. -/
lemma boundaryValid_valid : validateCandidate boundaryValid = .valid := by
  norm_num [validateCandidate, positivityFails, wallFails, hopperFails,
    frameFails, pocketFails, lidFails, maxLidRadius, boundaryValid, DEFAULTS]

/-- boundaryValid has nonnegative densities. -/
lemma boundaryValid_densities :
    0 ≤ boundaryValid.rho_shell ∧ 0 ≤ boundaryValid.rho_dust ∧
    0 ≤ boundaryValid.rho_lid := by
  norm_num [boundaryValid, DEFAULTS]

/-! ## Claim C1 -/

/-- C1 counterexample: the candidate badPositivity is rejected by the
positivity check, yet applying that check's remedy and re-running the
validator does NOT return Valid: the remedied candidate (L_rect 100,
t_wall 150) is rejected by the wall-thickness check. This refutes the
claim that fixing always yields Valid on the first retry for each of the
six checks. -/
theorem fix_not_idempotent_cx :
    validateCandidate badPositivity =
      .invalid (failureFor .positivity badPositivity) ∧
    validateCandidate (remediedOf badPositivity) ≠ .valid := by
  have h1 : validateCandidate badPositivity =
      .invalid (failureFor .positivity badPositivity) := by
    norm_num [validateCandidate, positivityFails, badPositivity, DEFAULTS]
  have h2 : remediedOf badPositivity = fixPositivity badPositivity := by
    simp [remediedOf, h1, failureFor]
  have h3 : validateCandidate (fixPositivity badPositivity) =
      .invalid (failureFor .wall (fixPositivity badPositivity)) := by
    norm_num [validateCandidate, positivityFails, wallFails, fixPositivity,
      max_def, badPositivity, DEFAULTS]
  exact ⟨h1, by rw [h2, h3]; simp⟩

/-- C1 (amended): only for the last check does fix-then-revalidate
always yield Valid. For every candidate rejected at the lid-hole-radius
check (the first five checks pass, the sixth fails), applying the lid
remedy and re-running the validator returns Valid on the first retry.
For earlier checks the remedied candidate can be rejected again, as the
counterexample shows. -/
theorem lidHole_fix_revalidates (c : Config)
    (h1 : ¬ positivityFails c) (h2 : ¬ wallFails c) (h3 : ¬ hopperFails c)
    (h4 : ¬ frameFails c) (h5 : ¬ pocketFails c) (h6 : lidFails c) :
    validateCandidate c = .invalid (failureFor .lidHole c) ∧
    validateCandidate (remediedOf c) = .valid := by
  have hval : validateCandidate c = .invalid (failureFor .lidHole c) := by
    simp [validateCandidate, h1, h2, h3, h4, h5, h6]
  refine ⟨hval, ?_⟩
  have hrem : remediedOf c = fixLid c := by
    simp [remediedOf, hval, failureFor]
  rw [hrem]
  have p1 : ¬ positivityFails (fixLid c) := by
    simpa [positivityFails, fixLid] using h1
  have p2 : ¬ wallFails (fixLid c) := by simpa [wallFails, fixLid] using h2
  have p3 : ¬ hopperFails (fixLid c) := by simpa [hopperFails, fixLid] using h3
  have p4 : ¬ frameFails (fixLid c) := by simpa [frameFails, fixLid] using h4
  have p5 : ¬ pocketFails (fixLid c) := by simpa [pocketFails, fixLid] using h5
  have p6 : ¬ lidFails (fixLid c) := by simp [lidFails, fixLid, maxLidRadius]
  simp [validateCandidate, p1, p2, p3, p4, p5, p6]

/-- C1 witness: the lid-remedy idempotence at the concrete candidate
badLidOnly. -/
theorem lidHole_fix_revalidates_witness :
    validateCandidate badLidOnly = .invalid (failureFor .lidHole badLidOnly) ∧
    validateCandidate (remediedOf badLidOnly) = .valid :=
  lidHole_fix_revalidates badLidOnly badLidOnly_checks.1 badLidOnly_checks.2.1
    badLidOnly_checks.2.2.1 badLidOnly_checks.2.2.2.1
    badLidOnly_checks.2.2.2.2.1 badLidOnly_checks.2.2.2.2.2

/-! ## Claim C2 -/

/-- C2 counterexample: starting from the default engine, committing the
invalid candidate badWall and resolving with Fix, a subsequent undo does
NOT restore the pre-commit configuration (the defaults): the undo stack
received the remedied candidate, not the pre-commit snapshot, so undo
leaves the remedied configuration in place. -/
theorem fix_undo_keeps_remedied_cx :
    validateCandidate badWall ≠ .valid ∧
    (undoOp (resolveFix (initEngine DEFAULTS) (failureFor .wall badWall))).state ≠
      (initEngine DEFAULTS).state := by
  constructor
  · rw [badWall_invalid]
    simp
  · have h2 : (undoOp (resolveFix (initEngine DEFAULTS)
        (failureFor .wall badWall))).state = fixWall badWall := rfl
    rw [h2]
    intro hcontra
    have := congrArg Config.t_wall hcontra
    norm_num [fixWall, maxWall, min_def, badWall, initEngine, DEFAULTS] at this

/-- C2 (amended): when a rejected commit is resolved with Fix, the
engine replaces the state with the remedied candidate FIRST and only
then pushes the undo snapshot, so the snapshot pushed is the remedied
candidate itself: after Fix the undo stack head is the remedied
candidate and a subsequent undo leaves the configuration equal to the
remedied candidate, not the pre-commit one. -/
theorem fix_pushes_remedied (e : Engine) (c : Config) (f : Failure)
    (h : validateCandidate c = .invalid f) :
    (resolveFix e f).state = f.fixed ∧
    (resolveFix e f).undoStack.head? = some f.fixed ∧
    (undoOp (resolveFix e f)).state = f.fixed := by
  obtain ⟨rest, hrest⟩ :=
    pushUndo_undoStack_head { e with state := f.fixed, lastValidState := f.fixed }
  have hstack : (resolveFix e f).undoStack = f.fixed :: rest := by
    simpa [resolveFix] using hrest
  refine ⟨by simp [resolveFix, pushUndo], ?_, ?_⟩
  · rw [hstack]; rfl
  · rw [undoOp_cons _ _ _ hstack]

/-- C2 witness: the amended behavior at the default engine and the
concrete rejected candidate badWall. -/
theorem fix_pushes_remedied_witness :
    (resolveFix (initEngine DEFAULTS) (failureFor .wall badWall)).state =
      (failureFor .wall badWall).fixed ∧
    (resolveFix (initEngine DEFAULTS)
      (failureFor .wall badWall)).undoStack.head? =
      some (failureFor .wall badWall).fixed ∧
    (undoOp (resolveFix (initEngine DEFAULTS)
      (failureFor .wall badWall))).state = (failureFor .wall badWall).fixed :=
  fix_pushes_remedied (initEngine DEFAULTS) badWall (failureFor .wall badWall)
    badWall_invalid

/-! ## Claim C3 -/

/-- C3: for every engine state and every candidate the validator
accepts, committing the candidate and then undoing restores the exact
prior configuration (field-for-field, as equality of the Config
record), and a subsequent redo restores the committed candidate. -/
theorem commit_undo_redo_roundtrip (e : Engine) (cand : Config)
    (h : validateCandidate cand = .valid) :
    (undoOp (commitState e cand).1).state = e.state ∧
    (redoOp (undoOp (commitState e cand).1)).state = cand := by
  have hc : (commitState e cand).1 = commitValid e cand := by
    simp [commitState, h]
  obtain ⟨rest, hrest⟩ := pushUndo_undoStack_head e
  have hu : (commitValid e cand).undoStack = e.state :: rest := by
    simp [commitValid, hrest]
  rw [hc, undoOp_cons _ _ _ hu]
  refine ⟨rfl, ?_⟩
  rw [redoOp_cons _ _ _ rfl]
  simp [commitValid]

/-- C3 witness: the roundtrip at the default engine with a valid
candidate whose length is 1500. -/
theorem commit_undo_redo_roundtrip_witness :
    (undoOp (commitState (initEngine DEFAULTS) longerValid).1).state =
      (initEngine DEFAULTS).state ∧
    (redoOp (undoOp (commitState (initEngine DEFAULTS) longerValid).1)).state =
      longerValid :=
  commit_undo_redo_roundtrip (initEngine DEFAULTS) longerValid longerValid_valid

/-! ## Claim C4 -/

/-- C4: a commit whose candidate fails validation performs no state
mutation while the Fix/Ignore decision is pending: commitState returns
the engine completely unchanged (current state, last-valid state, both
stacks, persist and recompute counters) together with the pending
failure, and the only two resolutions are the Fix and Ignore closures.
Choosing Ignore restores the last known valid snapshot and changes
nothing else: no history push, no recompute, no persist. -/
theorem invalid_commit_is_pending (e : Engine) (c : Config) (f : Failure)
    (h : validateCandidate c = .invalid f) :
    commitState e c = (e, some f) ∧
    (resolveIgnore e).state = e.lastValidState ∧
    (resolveIgnore e).lastValidState = e.lastValidState ∧
    (resolveIgnore e).undoStack = e.undoStack ∧
    (resolveIgnore e).redoStack = e.redoStack ∧
    (resolveIgnore e).saves = e.saves ∧
    (resolveIgnore e).recomputes = e.recomputes :=
  ⟨by simp [commitState, h], rfl, rfl, rfl, rfl, rfl, rfl⟩

/-- C4 witness: the pending-commit behavior at the default engine with
the concrete invalid candidate badWall. -/
theorem invalid_commit_is_pending_witness :
    commitState (initEngine DEFAULTS) badWall =
      (initEngine DEFAULTS, some (failureFor .wall badWall)) ∧
    (resolveIgnore (initEngine DEFAULTS)).state =
      (initEngine DEFAULTS).lastValidState ∧
    (resolveIgnore (initEngine DEFAULTS)).lastValidState =
      (initEngine DEFAULTS).lastValidState ∧
    (resolveIgnore (initEngine DEFAULTS)).undoStack =
      (initEngine DEFAULTS).undoStack ∧
    (resolveIgnore (initEngine DEFAULTS)).redoStack =
      (initEngine DEFAULTS).redoStack ∧
    (resolveIgnore (initEngine DEFAULTS)).saves = (initEngine DEFAULTS).saves ∧
    (resolveIgnore (initEngine DEFAULTS)).recomputes =
      (initEngine DEFAULTS).recomputes :=
  invalid_commit_is_pending (initEngine DEFAULTS) badWall
    (failureFor .wall badWall) badWall_invalid

/-! ## Claim C5 -/

/-- C5: the validator runs its six checks in the fixed order positivity,
wall thickness, hopper bound, frame height, pocket width, lid hole
radius, and short-circuits on the first failure: whenever a candidate
violates two or more checks, the single returned diagnostic, remedied
candidate and offending-field set are exactly those of the earliest
violated check in this order. -/
theorem validator_first_failure (c : Config) (k k2 : Check)
    (hk : checkFails k c) (hk2 : checkFails k2 c) (hne : k ≠ k2)
    (hmin : ∀ j, checkFails j c → checkIdx k ≤ checkIdx j) :
    validateCandidate c = .invalid (failureFor k c) := by
  cases k with
  | positivity =>
    simp only [checkFails] at hk
    simp [validateCandidate, hk]
  | wall =>
    simp only [checkFails] at hk
    have h1 : ¬ positivityFails c := fun hp => by
      simpa [checkIdx] using hmin .positivity hp
    simp [validateCandidate, h1, hk]
  | hopper =>
    simp only [checkFails] at hk
    have h1 : ¬ positivityFails c := fun hp => by
      simpa [checkIdx] using hmin .positivity hp
    have h2 : ¬ wallFails c := fun hp => by
      simpa [checkIdx] using hmin .wall hp
    simp [validateCandidate, h1, h2, hk]
  | frameHeight =>
    simp only [checkFails] at hk
    have h1 : ¬ positivityFails c := fun hp => by
      simpa [checkIdx] using hmin .positivity hp
    have h2 : ¬ wallFails c := fun hp => by
      simpa [checkIdx] using hmin .wall hp
    have h3 : ¬ hopperFails c := fun hp => by
      simpa [checkIdx] using hmin .hopper hp
    simp [validateCandidate, h1, h2, h3, hk]
  | pocketWidth =>
    simp only [checkFails] at hk
    have h1 : ¬ positivityFails c := fun hp => by
      simpa [checkIdx] using hmin .positivity hp
    have h2 : ¬ wallFails c := fun hp => by
      simpa [checkIdx] using hmin .wall hp
    have h3 : ¬ hopperFails c := fun hp => by
      simpa [checkIdx] using hmin .hopper hp
    have h4 : ¬ frameFails c := fun hp => by
      simpa [checkIdx] using hmin .frameHeight hp
    simp [validateCandidate, h1, h2, h3, h4, hk]
  | lidHole =>
    simp only [checkFails] at hk
    have h1 : ¬ positivityFails c := fun hp => by
      simpa [checkIdx] using hmin .positivity hp
    have h2 : ¬ wallFails c := fun hp => by
      simpa [checkIdx] using hmin .wall hp
    have h3 : ¬ hopperFails c := fun hp => by
      simpa [checkIdx] using hmin .hopper hp
    have h4 : ¬ frameFails c := fun hp => by
      simpa [checkIdx] using hmin .frameHeight hp
    have h5 : ¬ pocketFails c := fun hp => by
      simpa [checkIdx] using hmin .pocketWidth hp
    simp [validateCandidate, h1, h2, h3, h4, h5, hk]

/-- C5 witness: on the candidate badWallAndLid, which violates both the
wall check and the lid check, the validator reports the wall failure. -/
theorem validator_first_failure_witness :
    validateCandidate badWallAndLid =
      .invalid (failureFor .wall badWallAndLid) :=
  validator_first_failure badWallAndLid .wall .lidHole badWallAndLid_wall
    badWallAndLid_lid (by decide) badWallAndLid_min

/-! ## Claim C6 -/

/-- C6: after every sequence of commit, fix, ignore, undo, redo and
reset operations from a freshly loaded engine, each history stack holds
at most 50 snapshots; and pushing onto an undo stack that already holds
50 snapshots keeps its size at 50 by evicting the oldest entry (the
pushed list minus its last element) rather than growing the stack. -/
theorem history_stacks_bounded :
    (∀ (loaded : Config) (ops : List Op),
      (applyOps (initEngine loaded) ops).undoStack.length ≤ 50 ∧
      (applyOps (initEngine loaded) ops).redoStack.length ≤ 50) ∧
    (∀ e : Engine, e.undoStack.length = 50 →
      (pushUndo e).undoStack.length = 50 ∧
      (pushUndo e).undoStack = (e.state :: e.undoStack).dropLast) := by
  constructor
  · intro loaded ops
    have := stacks_bound_fold ops (initEngine loaded) (by simp [initEngine])
    omega
  · intro e h
    have hlen : (e.state :: e.undoStack).length > 50 := by simp [h]
    constructor
    · simp [pushUndo, hlen, h]
    · unfold pushUndo
      dsimp only
      rw [if_pos hlen]

/-- C6 witness: the bound after a concrete commit-undo sequence, and the
eviction behavior on the engine fullEngine holding 50 snapshots. -/
theorem history_stacks_bounded_witness :
    ((applyOps (initEngine DEFAULTS)
        [Op.commit longerValid, Op.undoBtn]).undoStack.length ≤ 50 ∧
     (applyOps (initEngine DEFAULTS)
        [Op.commit longerValid, Op.undoBtn]).redoStack.length ≤ 50) ∧
    ((pushUndo fullEngine).undoStack.length = 50 ∧
     (pushUndo fullEngine).undoStack =
       (fullEngine.state :: fullEngine.undoStack).dropLast) :=
  ⟨history_stacks_bounded.1 DEFAULTS [Op.commit longerValid, Op.undoBtn],
   history_stacks_bounded.2 fullEngine fullEngine_len⟩

/-! ## Claim C7 -/

/-- C7 counterexample: on the configuration thinFloor, whose floor
thickness exceeds its height, the calculator's internal cavity volume
(which clamps each inner DIMENSION to 0.001 m) differs from the spec's
formula (which clamps each partial VOLUME to 0): the code yields a
positive cavity volume where the spec formula yields zero. -/
theorem cavity_formula_cx :
    (computeVolumesAndMasses thinFloor (355 / 113)).V_internal ≠
      specCavityVolume thinFloor := by
  show V_internal thinFloor ≠ specCavityVolume thinFloor
  norm_num [V_internal, specCavityVolume, V_rect_in, V_hopper_in, L_in, W_in,
    H_in, x_in, mmToM, thinFloor, DEFAULTS]

/-- C7 (amended): whenever the three inner dimensions L-2t, W-2t and H-t
are each at least 0.001 m (one millimeter) after unit conversion — so
that the source's per-dimension clamps do not bite — the calculator's
internal cavity volume equals the spec formula, inner box volume plus
clamped hopper wedge volume, and the fill volume is that cavity volume
times clamp(fill_percentage/100, 0, 1). Without this proviso the two
disagree, as the counterexample shows. -/
theorem cavity_fill_formula (c : Config)
    (hL : 1 / 1000 ≤ mmToM c.L_rect - 2 * mmToM c.t_wall)
    (hW : 1 / 1000 ≤ mmToM c.W - 2 * mmToM c.t_wall)
    (hH : 1 / 1000 ≤ mmToM c.H - mmToM c.t_wall) :
    ∀ pi : ℚ,
      (computeVolumesAndMasses c pi).V_internal = specCavityVolume c ∧
      (computeVolumesAndMasses c pi).V_fill = specFillVolume c := by
  intro pi
  show V_internal c = specCavityVolume c ∧ V_fill c = specFillVolume c
  have hH0 : (0:ℚ) < mmToM c.H - mmToM c.t_wall :=
    lt_of_lt_of_le (by norm_num) hH
  have hW0 : (0:ℚ) < mmToM c.W - 2 * mmToM c.t_wall :=
    lt_of_lt_of_le (by norm_num) hW
  have hL0 : (0:ℚ) < mmToM c.L_rect - 2 * mmToM c.t_wall :=
    lt_of_lt_of_le (by norm_num) hL
  have hLin : L_in c = mmToM c.L_rect - 2 * mmToM c.t_wall := max_eq_right hL
  have hWin : W_in c = mmToM c.W - 2 * mmToM c.t_wall := max_eq_right hW
  have hHin : H_in c = mmToM c.H - mmToM c.t_wall := max_eq_right hH
  have hbox : max 0 ((mmToM c.L_rect - 2 * mmToM c.t_wall) *
      (mmToM c.W - 2 * mmToM c.t_wall) * (mmToM c.H - mmToM c.t_wall)) =
      (mmToM c.L_rect - 2 * mmToM c.t_wall) * (mmToM c.W - 2 * mmToM c.t_wall) *
      (mmToM c.H - mmToM c.t_wall) :=
    max_eq_right (by positivity)
  have hcav : V_internal c = specCavityVolume c := by
    unfold V_internal specCavityVolume V_rect_in V_hopper_in
    rw [hLin, hWin, hHin, hbox]
    rcases le_or_lt 0 (mmToM c.x_hopper - mmToM c.t_wall) with hx | hx
    · have hxin : x_in c = mmToM c.x_hopper - mmToM c.t_wall := max_eq_right hx
      have hwedge : max 0 (1 / 2 * (mmToM c.x_hopper - mmToM c.t_wall) *
          (mmToM c.H - mmToM c.t_wall) * (mmToM c.W - 2 * mmToM c.t_wall)) =
          1 / 2 * (mmToM c.x_hopper - mmToM c.t_wall) *
          (mmToM c.H - mmToM c.t_wall) * (mmToM c.W - 2 * mmToM c.t_wall) :=
        max_eq_right (by positivity)
      rw [hxin, hwedge]
    · have hxin : x_in c = 0 := max_eq_left (by linarith)
      have hwedge : max 0 (1 / 2 * (mmToM c.x_hopper - mmToM c.t_wall) *
          (mmToM c.H - mmToM c.t_wall) * (mmToM c.W - 2 * mmToM c.t_wall)) = 0 :=
        max_eq_left (by nlinarith [mul_pos hH0 hW0])
      rw [hxin, hwedge]
      ring
  exact ⟨hcav, by unfold V_fill specFillVolume fillFrac; rw [hcav]⟩

/-- C7 witness: the cavity and fill formulas agree at the default
configuration, whose inner dimensions all clear one millimeter. -/
theorem cavity_fill_formula_witness :
    (computeVolumesAndMasses DEFAULTS (355 / 113)).V_internal =
      specCavityVolume DEFAULTS ∧
    (computeVolumesAndMasses DEFAULTS (355 / 113)).V_fill =
      specFillVolume DEFAULTS :=
  cavity_fill_formula DEFAULTS defaults_innerDims.1 defaults_innerDims.2.1
    defaults_innerDims.2.2 (355 / 113)

/-! ## Claim C8 -/

/-- C8 counterexample: the validator accepts negDensity (its six checks
never look at densities), yet the calculator's shell mass output is
negative because the shell density is negative. This refutes the claim
that every mass output is nonnegative for every configuration the
validator accepts. -/
theorem negative_mass_cx :
    validateCandidate negDensity = .valid ∧
    (computeVolumesAndMasses negDensity (355 / 113)).m_shell < 0 := by
  constructor
  · norm_num [validateCandidate, positivityFails, wallFails, hopperFails,
      frameFails, pocketFails, lidFails, maxLidRadius, negDensity, DEFAULTS]
  · show m_shell negDensity < 0
    norm_num [m_shell, V_shell, V_outer, V_rect_out, V_hopper_out, V_frame_out,
      V_pockets, V_internal, V_rect_in, V_hopper_in, L_in, W_in, H_in, x_in,
      mmToM, negDensity, DEFAULTS]

/-- C8 (amended): for every configuration the validator accepts whose
three density fields are nonnegative — the validator itself never
constrains densities, so this extra hypothesis is needed — every volume
output (internal cavity, fill, shell, lid) and every mass output
(m_shell, m_lid, m_dust, m_total) of the calculator is nonnegative, for
any value of pi; this includes the boundary cases x_hopper 0, no frame,
no lid, fill percentage 0 or 100. -/
theorem valid_outputs_nonneg (c : Config) (pi : ℚ)
    (hv : validateCandidate c = .valid)
    (hs : 0 ≤ c.rho_shell) (hd : 0 ≤ c.rho_dust) (hl : 0 ≤ c.rho_lid) :
    0 ≤ (computeVolumesAndMasses c pi).V_internal ∧
    0 ≤ (computeVolumesAndMasses c pi).V_fill ∧
    0 ≤ V_shell c ∧ 0 ≤ V_lid c pi ∧
    0 ≤ (computeVolumesAndMasses c pi).m_shell ∧
    0 ≤ (computeVolumesAndMasses c pi).m_lid ∧
    0 ≤ (computeVolumesAndMasses c pi).m_dust ∧
    0 ≤ (computeVolumesAndMasses c pi).m_total := by
  have hrhoLid : 0 ≤ rhoLid c := by
    unfold rhoLid
    split <;> assumption
  have hmshell : 0 ≤ m_shell c := mul_nonneg (V_shell_nonneg c) hs
  have hmlid : 0 ≤ m_lid c pi := by
    unfold m_lid
    refine mul_nonneg (V_lid_nonneg c pi) ?_
    split
    · exact hrhoLid
    · exact le_refl 0
  have hmdust : 0 ≤ m_dust c := mul_nonneg (V_fill_nonneg c) hd
  refine ⟨V_internal_nonneg c, V_fill_nonneg c, V_shell_nonneg c,
    V_lid_nonneg c pi, hmshell, hmlid, hmdust, ?_⟩
  show 0 ≤ m_total c pi
  unfold m_total m_empty
  linarith

/-- C8 witness: nonnegative outputs at the valid boundary configuration
boundaryValid (no hopper, no frame, no lid, zero fill). -/
theorem valid_outputs_nonneg_witness :
    0 ≤ (computeVolumesAndMasses boundaryValid (355 / 113)).V_internal ∧
    0 ≤ (computeVolumesAndMasses boundaryValid (355 / 113)).V_fill ∧
    0 ≤ V_shell boundaryValid ∧ 0 ≤ V_lid boundaryValid (355 / 113) ∧
    0 ≤ (computeVolumesAndMasses boundaryValid (355 / 113)).m_shell ∧
    0 ≤ (computeVolumesAndMasses boundaryValid (355 / 113)).m_lid ∧
    0 ≤ (computeVolumesAndMasses boundaryValid (355 / 113)).m_dust ∧
    0 ≤ (computeVolumesAndMasses boundaryValid (355 / 113)).m_total :=
  valid_outputs_nonneg boundaryValid (355 / 113) boundaryValid_valid
    boundaryValid_densities.1 boundaryValid_densities.2.1
    boundaryValid_densities.2.2

/-! ## Claim C9 -/

/-- C9 counterexample: the empty string is an input text that is not
parseable interchange text, yet the import does not report a failure for
it: the source's early return (if (!text) return) treats it as a
cancellation and shows no alert, though it does leave the engine
unchanged. -/
theorem import_empty_silent_cx :
    importConfig (initEngine DEFAULTS) (some "") parseNone =
      (initEngine DEFAULTS, ImportOutcome.cancelled) ∧
    ImportOutcome.cancelled ≠ ImportOutcome.failureReported :=
  ⟨rfl, by simp⟩

/-- C9 (amended): for every NONEMPTY input text that the interchange
parser rejects, the import reports a failure and performs no merge at
all: the returned engine is exactly the input engine, so the current
configuration (in particular its L_rect field), the last-valid
configuration and both history stacks are unchanged. The empty string is
instead treated as a cancelled prompt and rejected silently, also
without mutation. -/
theorem import_malformed_unchanged (e : Engine) (t : String)
    (parse : String → Option Config) (hne : t ≠ "") (hp : parse t = none) :
    importConfig e (some t) parse = (e, .failureReported) := by
  simp [importConfig, hne, hp]

/-- C9 witness: a concrete malformed text against the default engine. -/
theorem import_malformed_unchanged_witness :
    importConfig (initEngine DEFAULTS) (some "not an interchange text")
      parseNone = (initEngine DEFAULTS, .failureReported) :=
  import_malformed_unchanged (initEngine DEFAULTS) "not an interchange text"
    parseNone (by decide) rfl

/-! ## Claim C10 -/

/-- C10: after every sequence of top-level operations (valid commit,
pending invalid commit, Fix resolution, Ignore resolution, undo, redo,
reset) from a freshly loaded engine, the live configuration equals the
separately tracked last-valid configuration field for field; in
particular undo and redo overwrite the last-valid snapshot with the
restored state: after an undo (respectively redo) on a nonempty stack
both the state and the last-valid snapshot equal the popped snapshot. -/
theorem state_matches_lastValid :
    (∀ (loaded : Config) (ops : List Op),
      (applyOps (initEngine loaded) ops).state =
        (applyOps (initEngine loaded) ops).lastValidState) ∧
    (∀ (e : Engine) (p : Config) (rest : List Config), e.undoStack = p :: rest →
      (undoOp e).lastValidState = p ∧ (undoOp e).state = p) ∧
    (∀ (e : Engine) (n : Config) (rest : List Config), e.redoStack = n :: rest →
      (redoOp e).lastValidState = n ∧ (redoOp e).state = n) := by
  refine ⟨fun loaded ops => state_eq_lastValid_fold ops _ rfl, ?_, ?_⟩
  · intro e p rest h
    rw [undoOp_cons e p rest h]
    exact ⟨rfl, rfl⟩
  · intro e n rest h
    rw [redoOp_cons e n rest h]
    exact ⟨rfl, rfl⟩

/-- C10 witness: the invariant after a concrete commit-undo sequence,
and the last-valid overwrite on the engine oneEachEngine with one
snapshot on each stack. -/
theorem state_matches_lastValid_witness :
    (applyOps (initEngine DEFAULTS) [Op.commit longerValid, Op.undoBtn]).state =
      (applyOps (initEngine DEFAULTS)
        [Op.commit longerValid, Op.undoBtn]).lastValidState ∧
    ((undoOp oneEachEngine).lastValidState = longerValid ∧
      (undoOp oneEachEngine).state = longerValid) ∧
    ((redoOp oneEachEngine).lastValidState = longerValid ∧
      (redoOp oneEachEngine).state = longerValid) :=
  ⟨state_matches_lastValid.1 DEFAULTS [Op.commit longerValid, Op.undoBtn],
   state_matches_lastValid.2.1 oneEachEngine longerValid [] rfl,
   state_matches_lastValid.2.2 oneEachEngine longerValid [] rfl⟩

end DustContainer
